import Mathlib

/-!
Verification development for the Jhimki stock-assistant pipeline.

The development shallowly embeds the Python sources:
  * `src/pinecone_search.py`  — `PineconeSearchService` (`search`, `_build_filter`,
    `_convert_results_to_matches`),
  * `src/api/bot_service.py`  — `ConversationSession` (`add_message`,
    `get_context_window`, `update_context`) and `BotService`
    (`process_message`, `_extract_intent`, `_decide_action`, `_execute_action`,
    `_execute_search`, `_execute_clarify`, `_execute_chat`, `_format_products`,
    `_generate_search_response`).

Python dictionaries are modelled as association lists over a `Value` type of
JSON-like values; external collaborators (the GPT classifier, the GPT
generators and the Pinecone index query) are modelled as oracles packaged in
an `Env`, and each collaborator *query* performed by the code is recorded in
an effect trace.  Exceptions are modelled with `Except String`; the message
text of a raised exception is abstract (the claims never inspect it).
Floating-point numbers are modelled as rationals.
-/

namespace Jhimki

/-- JSON-like Python values (None, bool, number, str, dict, list).
Numbers are modelled as rationals. -/
inductive Value where
  | vNull
  | vBool (b : Bool)
  | vNum (q : ℚ)
  | vStr (s : String)
  | vDict (entries : List (String × Value))
  | vList (items : List Value)

/-- A Python dict with string keys, as an association list (first binding wins
on lookup; assignment overwrites in place). -/
abbrev Dict := List (String × Value)

/-- Python truthiness of a value (`bool(v)`). -/
def Value.truthy : Value → Bool
  | .vNull => false
  | .vBool b => b
  | .vNum q => q ≠ 0
  | .vStr s => s ≠ ""
  | .vDict es => ¬ es.isEmpty
  | .vList xs => ¬ xs.isEmpty

/-- Python `v == "lit"` for a string literal: true only when `v` is that very
string (Python equality between a non-string and a string is `False`). -/
def Value.isStrLit (v : Value) (lit : String) : Bool :=
  match v with
  | .vStr s => s = lit
  | _ => false

/-- Raw lookup in an association list (`k in d` iff this is `some`). -/
def dlookup {α : Type} (d : List (String × α)) (k : String) : Option α :=
  (d.find? (fun p => p.1 = k)).map (fun p => p.2)

/-- Python `d.get(k)`: absent keys give `None`. -/
def pyGet (d : Dict) (k : String) : Value :=
  (dlookup d k).getD .vNull

/-- Python `d.get(k, default)`. -/
def pyGetD (d : Dict) (k : String) (default : Value) : Value :=
  (dlookup d k).getD default

/-- Python `d[k] = v` on an association list: overwrite in place, else append. -/
def dinsert {α : Type} (d : List (String × α)) (k : String) (v : α) :
    List (String × α) :=
  if (dlookup d k).isSome then
    d.map (fun p => if p.1 = k then (p.1, v) else p)
  else d ++ [(k, v)]

/-- Modify the value stored at key `k` (used for `filter_dict['price']['$lte'] = …`). -/
def dmodify {α : Type} (d : List (String × α)) (k : String) (f : α → α) :
    List (String × α) :=
  d.map (fun p => if p.1 = k then (p.1, f p.2) else p)

/-- View a value as a dict (the modelled fragment only reaches this on dicts). -/
def Value.asDict : Value → Dict
  | .vDict es => es
  | _ => []

/-- View a value as a list (the modelled fragment only reaches this on lists). -/
def Value.asList : Value → List Value
  | .vList xs => xs
  | _ => []

/-- Characters stripped by Python `str.strip()`. -/
def isPySpace (c : Char) : Bool :=
  c = ' ' ∨ c = '\t' ∨ c = '\n' ∨ c = '\r' ∨ c = '\x0b' ∨ c = '\x0c'

/-- Python `s.strip()`. -/
def pyStripStr (s : String) : String :=
  String.mk (((s.toList.dropWhile isPySpace).reverse.dropWhile isPySpace).reverse)

/-- Value of a digit string, as a rational. -/
def digitsVal (ds : List Char) : ℚ :=
  ds.foldl (fun acc c => acc * 10 + ((c.toNat - 48 : ℕ) : ℚ)) 0

/-- Python `float(s)` on the plain decimal forms `[±]digits[.digits]`
(whitespace stripped first).  Exponent/inf/nan forms, which never occur in the
modelled data, are not parsed. -/
def parseFloatQ (s : String) : Option ℚ :=
  let cs := (pyStripStr s).toList
  let signAndRest : ℚ × List Char :=
    match cs with
    | '-' :: t => (-1, t)
    | '+' :: t => (1, t)
    | _ => (1, cs)
  let sign := signAndRest.1
  let body := signAndRest.2
  let ip := body.takeWhile (fun c => c.isDigit)
  let rest := body.dropWhile (fun c => c.isDigit)
  match rest with
  | [] => if ip.isEmpty then none else some (sign * digitsVal ip)
  | '.' :: fp =>
      if fp.all (fun c => c.isDigit) ∧ ¬ (ip.isEmpty ∧ fp.isEmpty) then
        some (sign * (digitsVal ip + digitsVal fp / (10 ^ fp.length)))
      else none
  | _ => none

/-- Python `float(v)`: `none` models a raised `ValueError`/`TypeError`. -/
def pyFloat : Value → Option ℚ
  | .vNum q => some q
  | .vBool b => some (if b then 1 else 0)
  | .vStr s => parseFloatQ s
  | _ => none

/-- Decimal representation of a rational (used by `str()` on numbers; the
claims never inspect it on non-integers, where Python would print a float). -/
def ratRepr (q : ℚ) : String :=
  if q.den = 1 then toString q.num else toString q.num ++ "/" ++ toString q.den

/-- Python `str(v)`, to bounded nesting depth for containers. -/
def pyStrAux : Nat → Value → String
  | _, .vNull => "None"
  | _, .vBool true => "True"
  | _, .vBool false => "False"
  | _, .vNum q => ratRepr q
  | _, .vStr s => s
  | 0, .vDict _ => ""
  | 0, .vList _ => ""
  | n + 1, .vDict es =>
      "\x7b" ++ String.intercalate ", "
        (es.map (fun p => "'" ++ p.1 ++ "': " ++ pyStrAux n p.2)) ++ "\x7d"
  | n + 1, .vList xs =>
      "[" ++ String.intercalate ", " (xs.map (fun v => pyStrAux n v)) ++ "]"

/-- Python `str(v)` (containers rendered to depth 100). -/
def pyStr (v : Value) : String := pyStrAux 100 v

/-- Insert thousands separators into a reversed digit list. -/
def groupRev : List Char → List Char
  | a :: b :: c :: d :: rest => a :: b :: c :: ',' :: groupRev (d :: rest)
  | l => l

/-- Thousands-separated decimal rendering of a natural number. -/
def commaFmtNat (n : ℕ) : String :=
  String.mk ((groupRev (Nat.repr n).toList.reverse).reverse)

/-- Thousands-separated decimal rendering of an integer
(Python format spec `,.0f` after rounding). -/
def commaFmtInt (n : ℤ) : String :=
  if n < 0 then "-" ++ commaFmtNat n.natAbs else commaFmtNat n.natAbs

/-- Round a rational to the nearest integer, ties to even
(Python float formatting/rounding discipline). -/
def roundHalfEvenInt (q : ℚ) : ℤ :=
  let fl : ℤ := ⌊q⌋
  if q - fl < 1/2 then fl
  else if q - fl > 1/2 then fl + 1
  else if fl % 2 = 0 then fl else fl + 1

/-- Python `round(x, 4)` on a number. -/
def round4 (q : ℚ) : ℚ :=
  ((roundHalfEvenInt (q * 10000) : ℤ) : ℚ) / 10000

/-! ## `src/pinecone_search.py` — `PineconeSearchService` -/

/-- A Pinecone metadata-filter constraint: a dict of operator keys
(`"$eq"`, `"$gte"`, `"$lte"`) to values. -/
abbrev Constraint := List (String × Value)

/-- A full metadata filter: field name to constraint. -/
abbrev Filter := List (String × Constraint)

/-- `PineconeSearchService._build_filter`: build the metadata filter from
`intent_data` (keys `category`, `subcategory`, `attributes`; inside
`attributes` the keys `color`, `fabric`, `technique`, `pattern` and a
`price_range` dict with `min`/`max`).  `attributes = intent_data.get('attributes', {})`
itself cannot raise, and the category/subcategory constraints are appended
first, but the first `attributes.get(...)` raises `AttributeError` when the
`attributes` value is present but not a mapping (e.g. the classifier emitted
`attributes: null`), discarding the partial filter — hence the `Except`
result.  The in-stock constraint is commented out in the source and hence
absent here. -/
def build_filter (intent_data : Dict) : Except String Filter :=
  let category := pyGet intent_data "category"
  let subcategory := pyGet intent_data "subcategory"
  let attributes := pyGetD intent_data "attributes" (.vDict [])
  let f0 : Filter := []
  let f1 := if category.truthy then dinsert f0 "category" [("$eq", category)] else f0
  let f2 := if subcategory.truthy then dinsert f1 "subcategory" [("$eq", subcategory)] else f1
  match attributes with
  | .vDict attrs =>
      let f3 := if (pyGet attrs "color").truthy then
          dinsert f2 "color" [("$eq", pyGet attrs "color")] else f2
      let f4 := if (pyGet attrs "fabric").truthy then
          dinsert f3 "fabric" [("$eq", pyGet attrs "fabric")] else f3
      let f5 := if (pyGet attrs "technique").truthy then
          dinsert f4 "technique" [("$eq", pyGet attrs "technique")] else f4
      let f6 := if (pyGet attrs "pattern").truthy then
          dinsert f5 "pattern" [("$eq", pyGet attrs "pattern")] else f5
      let price_range := pyGet attrs "price_range"
      if price_range.truthy then
        match price_range with
        | .vDict pr =>
            let g := if (pyGet pr "min").truthy then
                dinsert f6 "price" [("$gte", pyGet pr "min")] else f6
            if (pyGet pr "max").truthy then
              if (dlookup g "price").isSome then
                .ok (dmodify g "price" (fun c => dinsert c "$lte" (pyGet pr "max")))
              else .ok (dinsert g "price" [("$lte", pyGet pr "max")])
            else .ok g
        | _ => .ok f6
      else .ok f6
  | _ => .error "AttributeError: get"

/-- The canonical match record built by `_convert_results_to_matches`:
an ad-hoc object with `id`, `score` and `metadata` attributes.  A `fields`
value that is not a mapping is outside the modelled fragment (the Python
code would store it and crash later on attribute access). -/
structure MatchRec where
  id : Value
  score : Value
  metadata : Dict

/-- One hit converted to a match object
(`id = hit.get('_id')`, `score = hit.get('_score', 0)`,
`metadata = hit.get('fields', {})`). -/
def hit_to_match (hit : Dict) : MatchRec :=
  { id := pyGet hit "_id"
    score := pyGetD hit "_score" (.vNum 0)
    metadata := (pyGetD hit "fields" (.vDict [])).asDict }

/-- `PineconeSearchService._convert_results_to_matches`: the raw result object
is modelled as a `Value`; attribute access `results.result` is modelled as a
key lookup (`hasattr` failing when the key is absent or the value is not a
dict). -/
def convert_results_to_matches (results : Value) : List MatchRec :=
  if results.truthy then
    match results with
    | .vDict d =>
        match dlookup d "result" with
        | some r =>
            if r.truthy then
              ((pyGetD r.asDict "hits" (.vList [])).asList).map
                (fun h => hit_to_match h.asDict)
            else []
        | none => []
    | _ => []
  else []

/-- A collaborator query performed by the pipeline: a Pinecone index query or
a GPT chat-completion call. -/
inductive Effect where
  | indexQuery
  | generateCall
deriving DecidableEq, Repr

/-- Oracles for the external collaborators of one conversation turn.
`classify` is the combined outcome of the intent-extraction GPT call and the
JSON parse of its output; `searchHits` is the raw Pinecone result object or a
raised exception; `chatGen` / `searchGen` are the two response-generation GPT
calls.  Each is called at most once per turn. -/
structure Env where
  classify : Except String Dict
  searchHits : Except String Value
  chatGen : Except String String
  searchGen : Except String String

/-- The filter-construction step of `search` (pinecone_search.py line 62):
`filter_dict = self._build_filter(intent_data) if intent_data else {}`.
This line sits *before* the try block, so an `AttributeError` raised inside
`_build_filter` propagates out of `search` without any index contact. -/
def filter_of_intent_data (intent_data : Option Dict) : Except String Filter :=
  match intent_data with
  | some d => if ¬ d.isEmpty then build_filter d else .ok []
  | none => .ok []

/-- `PineconeSearchService.search`: lazy client construction (`_initialize`,
which issues no index query) is implicit; an empty or whitespace-only query
returns `[]` before the index is ever queried; the metadata filter is then
built outside the try block — a raise there propagates with no index contact
— but is not attached to the query (the `query_params["filter"]` line is
commented out in the source); any exception raised by the index query or by
result conversion is caught and yields `[]`.  Alongside the result (or
uncaught exception) the list of collaborator queries performed is returned. -/
def searchService (env : Env) (query_text : Value) (intent_data : Option Dict)
    (top_k : ℕ) : Except String (List MatchRec) × List Effect :=
  match query_text with
  | .vStr s =>
      if pyStripStr s = "" then (.ok [], [])
      else
        match filter_of_intent_data intent_data with
        | .error e => (.error e, [])
        | .ok _filter_dict =>
            let _top_k := top_k
            match env.searchHits with
            | .ok raw => (.ok (convert_results_to_matches raw), [.indexQuery])
            | .error _ => (.ok [], [.indexQuery])
  | v =>
      -- `not query_text` short-circuits; `.strip()` on a truthy non-string raises
      if ¬ v.truthy then (.ok [], [])
      else (.error "AttributeError: strip", [])

/-! ## `src/api/bot_service.py` — `ConversationSession` -/

/-- One stored history entry (`{"role": …, "content": …, "timestamp": …}`).
`datetime.now()` is modelled by an abstract monotone clock. -/
structure Message where
  role : String
  content : Value
  timestamp : ℕ

/-- `ConversationSession`: message history, context dict and timestamps;
`clock` models the advancing wall clock read by `datetime.now()`. -/
structure Session where
  session_id : String
  messages : List Message
  context : Dict
  created_at : ℕ
  last_updated : ℕ
  clock : ℕ

/-- A fresh session at clock time `t`. -/
def Session.new (sid : String) (t : ℕ) : Session :=
  { session_id := sid, messages := [], context := [],
    created_at := t, last_updated := t, clock := t + 1 }

/-- `ConversationSession.add_message`. -/
def add_message (s : Session) (role : String) (content : Value) : Session :=
  { s with
    messages := s.messages ++ [{ role := role, content := content, timestamp := s.clock }]
    last_updated := s.clock
    clock := s.clock + 1 }

/-- Python `messages[-n:]` for a non-negative `n` (`messages[-0:]` is the
whole list). -/
def pySliceLast {α : Type} (xs : List α) (n : ℕ) : List α :=
  if n = 0 then xs else xs.drop (xs.length - n)

/-- `ConversationSession.get_context_window`: the last `max_messages` entries
(whole history when it is no longer than that), stripped to role and content. -/
def get_context_window (s : Session) (max_messages : ℕ) : List (String × Value) :=
  let recent :=
    if s.messages.length > max_messages then pySliceLast s.messages max_messages
    else s.messages
  recent.map (fun m => (m.role, m.content))

/-- `ConversationSession.update_context`. -/
def update_context (s : Session) (key : String) (value : Value) : Session :=
  { s with
    context := dinsert s.context key value
    last_updated := s.clock
    clock := s.clock + 1 }

/-! ## `src/api/bot_service.py` — `BotService` -/

/-- The default intent returned by `_extract_intent` when the classification
call or the JSON parse fails. -/
def default_intent (user_message : String) : Dict :=
  [("intent_type", .vStr "general_question"),
   ("search_query", .vStr user_message),
   ("confidence", .vNum (1/2)),
   ("needs_clarification", .vBool false)]

/-- `BotService._extract_intent`: the GPT call and JSON parse are the
`env.classify` oracle (the prompt built from the catalogue schema and the
5-message context window feeds that opaque call).  On success, truthy
`attributes` and `category` are written into the session context; on any
failure the default intent is returned and the session is untouched. -/
def extract_intent (env : Env) (user_message : String) (s : Session) :
    Dict × Session :=
  match env.classify with
  | .ok intent =>
      let s1 := if (pyGet intent "attributes").truthy then
          update_context s "last_attributes" (pyGet intent "attributes") else s
      let s2 := if (pyGet intent "category").truthy then
          update_context s1 "last_category" (pyGet intent "category") else s1
      (intent, s2)
  | .error _ => (default_intent user_message, s)

/-- Python `v < c` against a float: numbers and booleans compare, anything
else raises `TypeError`. -/
def pyLtNum (v : Value) (c : ℚ) : Except String Bool :=
  match v with
  | .vNum q => .ok (q < c)
  | .vBool b => .ok ((if b then (1 : ℚ) else 0) < c)
  | _ => .error "TypeError: < not supported"

/-- `intent.get("intent_type", "general_question")`. -/
def intent_type_of (intent : Dict) : Value :=
  pyGetD intent "intent_type" (.vStr "general_question")

/-- `intent.get("needs_clarification", False)`. -/
def needs_clarification_of (intent : Dict) : Value :=
  pyGetD intent "needs_clarification" (.vBool false)

/-- `intent.get("confidence", 0.5)`. -/
def confidence_of (intent : Dict) : Value :=
  pyGetD intent "confidence" (.vNum (1/2))

/-- `BotService._decide_action`: first-match-wins routing on
`intent_type` / `needs_clarification` / `confidence` (a non-numeric
`confidence` raises when the comparison is reached). -/
def decide_action (intent : Dict) : Except String String :=
  let intent_type := intent_type_of intent
  let needs_clarification := needs_clarification_of intent
  let confidence := confidence_of intent
  if intent_type.isStrLit "off_topic" then .ok "chat"
  else if needs_clarification.truthy then .ok "clarify"
  else
    match pyLtNum confidence (3/5) with
    | .error e => .error e
    | .ok true => .ok "clarify"
    | .ok false =>
        if intent_type.isStrLit "product_search" then .ok "search"
        else .ok "chat"

/-- The price string built by `_format_products`
(`f"₹{float(price):,.0f}"`, falling back to `str(price)` on a parse
failure, `'N/A'` for an absent/falsy price). -/
def format_price (price_value : Value) : String :=
  if ¬ price_value.isStrLit "N/A" ∧ price_value.truthy then
    match pyFloat price_value with
    | some x => "₹" ++ commaFmtInt (roundHalfEvenInt x)
    | none => pyStr price_value
  else "N/A"

/-- Python `round(v, 4)`: numbers round half-to-even at 4 decimal places,
booleans coerce to integers, anything else raises `TypeError`. -/
def pyRound4 (v : Value) : Except String Value :=
  match v with
  | .vNum q => .ok (.vNum (round4 q))
  | .vBool b => .ok (.vNum (if b then 1 else 0))
  | _ => .error "TypeError: round"

/-- `BotService._format_products` on a single match: the product presentation
record, or a raised exception when `round(match.score, 4)` fails. -/
def format_product (m : MatchRec) : Except String Dict :=
  let price_formatted := format_price (pyGetD m.metadata "price" (.vStr "N/A"))
  match pyRound4 m.score with
  | .error e => .error e
  | .ok scoreRounded =>
      .ok [("id", m.id),
           ("product_id", pyGetD m.metadata "product_id" m.id),
           ("name", pyGetD m.metadata "product_name" (.vStr "Unknown")),
           ("price", .vStr price_formatted),
           ("category", pyGetD m.metadata "category" (.vStr "")),
           ("subcategory", pyGetD m.metadata "subcategory" (.vStr "")),
           ("color", pyGetD m.metadata "color" (.vStr "")),
           ("fabric", pyGetD m.metadata "fabric" (.vStr "")),
           ("technique", pyGetD m.metadata "technique" (.vStr "")),
           ("pattern", pyGetD m.metadata "pattern" (.vStr "")),
           ("description", pyGetD m.metadata "description" (.vStr "")),
           ("in_stock", pyGetD m.metadata "in_stock" (.vBool true)),
           ("colors_available", pyGetD m.metadata "colors_available" (.vStr "")),
           ("score", scoreRounded)]

/-- `BotService._format_products` over a match list. -/
def format_products : List MatchRec → Except String (List Dict)
  | [] => .ok []
  | m :: rest =>
      match format_product m with
      | .error e => .error e
      | .ok p =>
          match format_products rest with
          | .error e => .error e
          | .ok ps => .ok (p :: ps)

/-- The `in_stock_status` label computed per product in
`_generate_search_response`
(`"In Stock" if product.get('in_stock', True) else "Out of Stock"`). -/
def stock_status (product : Dict) : String :=
  if (pyGetD product "in_stock" (.vBool true)).truthy then "In Stock"
  else "Out of Stock"

/-- The part of the per-product summary block before the stock line. -/
def product_summary_pre (i : ℕ) (product : Dict) : String :=
  "\nProduct " ++ Nat.repr (i + 1) ++ ":\n" ++
  "- Name: " ++ pyStr (pyGetD product "name" (.vStr "Unknown")) ++ "\n" ++
  "- Category: " ++ pyStr (pyGetD product "category" (.vStr "")) ++ " / " ++
    pyStr (pyGetD product "subcategory" (.vStr "")) ++ "\n" ++
  "- Fabric: " ++ pyStr (pyGetD product "fabric" (.vStr "")) ++ "\n" ++
  "- Technique: " ++ pyStr (pyGetD product "technique" (.vStr "")) ++ "\n" ++
  "- Color: " ++ pyStr (pyGetD product "color" (.vStr "")) ++ "\n" ++
  "- Pattern: " ++ pyStr (pyGetD product "pattern" (.vStr "")) ++ "\n" ++
  "- Price: " ++ pyStr (pyGetD product "price" (.vStr "N/A")) ++ "\n"

/-- The part of the per-product summary block after the stock line. -/
def product_summary_post (product : Dict) : String :=
  "- Description: " ++ pyStr (pyGetD product "description" (.vStr "")) ++ "\n"

/-- The per-product summary block embedded in the search-response generation
prompt, with the stock line carrying `stock_status`. -/
def product_summary (i : ℕ) (product : Dict) : String :=
  product_summary_pre i product ++
  "- Stock: " ++ stock_status product ++ "\n" ++
  product_summary_post product

/-- The `query_description` string built in `_generate_search_response` from
the intent's attributes.  As in `_build_filter`, `attributes.get(...)` raises
`AttributeError` when the `attributes` value is present but not a mapping;
this happens before the generation try block, so it propagates. -/
def query_description (intent : Dict) : Except String String :=
  match pyGetD intent "attributes" (.vDict []) with
  | .vDict attrs =>
      let terms : List String :=
        (if (pyGet attrs "color").truthy then
            ["color: " ++ pyStr (pyGet attrs "color")] else []) ++
        (if (pyGet attrs "fabric").truthy then
            ["fabric: " ++ pyStr (pyGet attrs "fabric")] else []) ++
        (if (pyGet attrs "technique").truthy then
            ["technique: " ++ pyStr (pyGet attrs "technique")] else []) ++
        (if (pyGet attrs "price_max").truthy then
            ["under ₹" ++ pyStr (pyGet attrs "price_max")] else [])
      if ¬ terms.isEmpty then .ok (String.intercalate ", " terms)
      else .ok (pyStr (pyGetD intent "search_query" (.vStr "your request")))
  | _ => .error "AttributeError: get"

/-- `BotService._generate_search_response`: the prompt embeds the summaries of
the top 5 products and the query description (whose construction may raise
before the try block, propagating with no generation call); the GPT call is
the `env.searchGen` oracle; on a raised generation failure a fixed fallback
line is used. -/
def generate_search_response (env : Env) (intent : Dict)
    (products : List Dict) : Except String String × List Effect :=
  let _summaries := ((products.take 5).enum).map (fun p => product_summary p.1 p.2)
  match query_description intent with
  | .error e => (.error e, [])
  | .ok qd =>
      match env.searchGen with
      | .ok text => (.ok text, [.generateCall])
      | .error _ =>
          if products.isEmpty then
            (.ok ("I couldn't find any products matching " ++ qd ++
              ". Would you like to try a different color or style?"), [.generateCall])
          else
            (.ok ("I found " ++ Nat.repr products.length ++
              " items matching your search. Here are the results!"), [.generateCall])

/-- `BotService._execute_search`. -/
def execute_search (env : Env) (intent : Dict) :
    Except String Dict × List Effect :=
  let search_query := pyGetD intent "search_query" (.vStr "")
  let intent_data : Dict :=
    [("category", pyGet intent "category"),
     ("subcategory", pyGet intent "subcategory"),
     ("attributes", pyGetD intent "attributes" (.vDict []))]
  match searchService env search_query (some intent_data) 10 with
  | (.error e, effs) => (.error e, effs)
  | (.ok ms, effs) =>
      match format_products ms with
      | .error e => (.error e, effs)
      | .ok products =>
          let gr := generate_search_response env intent products
          match gr.1 with
          | .error e => (.error e, effs ++ gr.2)
          | .ok response_message =>
              (.ok [("response", .vStr response_message),
                    ("products", .vList (products.map .vDict)),
                    ("action", .vStr "search"),
                    ("intent", .vDict intent)],
               effs ++ gr.2)

/-- The generic clarification prompt used when the intent carries no
clarification question. -/
def generic_clarification : String :=
  "I want to help you find the perfect item! Could you provide more details about what you're looking for? For example, the type of clothing, color, fabric, or occasion?"

/-- `BotService._execute_clarify` (pure — no collaborator call). -/
def execute_clarify (intent : Dict) : Dict :=
  let clarification := pyGet intent "clarification_question"
  let c := if ¬ clarification.truthy then .vStr generic_clarification else clarification
  [("response", c),
   ("products", .vList []),
   ("action", .vStr "clarify"),
   ("intent", .vDict intent)]

/-- The fixed off-topic boundary message returned by `_execute_chat`. -/
def off_topic_message : String :=
  "I'm only able to help with Jhimki's product catalogue and availability. How can I help you find something from our collection today?"

/-- The fixed fallback used by `_execute_chat` when the generation call fails. -/
def chat_fallback_message : String :=
  "Welcome to Jhimki! 🙏 We specialize in handcrafted sarees, suit sets, and fabrics. What can I help you find today?"

/-- `BotService._execute_chat`: an off-topic intent short-circuits to the
fixed boundary message before the GPT call; otherwise the `env.chatGen`
oracle is queried, with a fixed fallback on a raised failure. -/
def execute_chat (env : Env) (intent : Dict) (_user_message : String) :
    Dict × List Effect :=
  let intent_type := intent_type_of intent
  if intent_type.isStrLit "off_topic" then
    ([("response", .vStr off_topic_message),
      ("products", .vList []),
      ("action", .vStr "chat"),
      ("intent", .vDict intent)], [])
  else
    match env.chatGen with
    | .ok text =>
        ([("response", .vStr text),
          ("products", .vList []),
          ("action", .vStr "chat"),
          ("intent", .vDict intent)], [.generateCall])
    | .error _ =>
        ([("response", .vStr chat_fallback_message),
          ("products", .vList []),
          ("action", .vStr "chat"),
          ("intent", .vDict intent)], [.generateCall])

/-- `BotService._execute_action`. -/
def execute_action (env : Env) (action : String) (intent : Dict)
    (user_message : String) : Except String Dict × List Effect :=
  if action = "search" then execute_search env intent
  else if action = "clarify" then (.ok (execute_clarify intent), [])
  else
    (.ok (execute_chat env intent user_message).1,
     (execute_chat env intent user_message).2)

/-- The fixed apology returned on the orchestrator's error path. -/
def apology_message : String :=
  "I apologize, but I encountered an error processing your request. Please try again."

/-- The error-path response dictionary. -/
def error_response (e : String) : Dict :=
  [("response", .vStr apology_message),
   ("products", .vList []),
   ("action", .vStr "error"),
   ("error", .vStr e)]

/-- `BotService.process_message` on an already-obtained session: append the
user message, extract intent (never raises; may mutate session context),
decide the action, execute it, append the assistant message; any uncaught
exception yields the fixed apology with the `error` action tag, leaving the
session as it was at the raise point.  Returns the updated session, the
response dictionary, and the collaborator queries performed. -/
def process_message (env : Env) (session : Session) (user_message : String) :
    Session × Dict × List Effect :=
  let s1 := add_message session "user" (.vStr user_message)
  let es := extract_intent env user_message s1
  let intent := es.1
  let s2 := es.2
  match decide_action intent with
  | .error e => (s2, error_response e, [])
  | .ok action =>
      match execute_action env action intent user_message with
      | (.error e, effs) => (s2, error_response e, effs)
      | (.ok response_data, effs) =>
          (add_message s2 "assistant" (pyGet response_data "response"),
           response_data, effs)

/-- Modelled from the spec's words (§3, Product): the explicit empty/unknown
markers a metadata field absent from a match may render as in the
presentation record.  Used only to compare the source's behaviour against the
spec's wording. -/
def spec_empty_marker : Value → Bool
  | .vNull => true
  | .vStr s => s = "" ∨ s = "N/A" ∨ s = "Unknown"
  | _ => false

/-! ## Helper lemmas -/

theorem isStrLit_eq_true_iff (v : Value) (lit : String) :
    v.isStrLit lit = true ↔ v = .vStr lit := by
  cases v <;> simp [Value.isStrLit]

theorem extract_intent_messages (env : Env) (msg : String) (s : Session) :
    (extract_intent env msg s).2.messages = s.messages := by
  unfold extract_intent
  cases env.classify with
  | ok intent =>
      simp only [update_context]
      split <;> split <;> rfl
  | error e => rfl

/-! ## Claims -/

/-- C2: the spec claims the filter builder assembles the price range
constraint from whichever of `price_min` / `price_max` are present in the
attributes, and that building from attributes holding only `price_max: 3000`
yields exactly the range constraint `price ≤ 3000`.  The source instead reads
only a `price_range` entry that must already be a dict with `min`/`max` keys
— the `price_min`/`price_max` keys declared by the intent-extraction schema
in the same repository are ignored, so the claim's second instance yields an
empty filter.  This theorem evaluates the code at the failing input (and at
the inputs showing the empty case and the `price_range`-dict case the code
does implement). -/
theorem build_filter_price_keys_ignored :
    build_filter [] = .ok [] ∧
    build_filter [("attributes", .vDict [("price_max", .vNum 3000)])] = .ok [] ∧
    build_filter [("attributes", .vDict [("price_min", .vNum 1000),
      ("price_max", .vNum 3000)])] = .ok [] ∧
    build_filter [("attributes", .vDict [("price_range", .vDict [("max", .vNum 3000)])])] =
      .ok [("price", [("$lte", .vNum 3000)])] ∧
    build_filter [("attributes", .vDict [("price_range", .vDict [("min", .vNum 1000),
      ("max", .vNum 3000)])])] =
      .ok [("price", [("$gte", .vNum 1000), ("$lte", .vNum 3000)])] :=
  ⟨rfl, rfl, rfl, rfl, rfl⟩

/-- C4: for every query text that is empty or whitespace-only after trimming,
and for every filter input and `top_k`, the retrieval adapter's `search`
returns an empty sequence and performs no collaborator query at all. -/
theorem search_empty_query (env : Env) (q : String) (intent_data : Option Dict)
    (top_k : ℕ) (h : pyStripStr q = "") :
    searchService env (.vStr q) intent_data top_k = (.ok [], []) := by
  simp [searchService, h]

/-- Witness for C4 at the spec's own instance `search("   ", anyFilter, 10)`. -/
theorem search_empty_query_witness :
    pyStripStr "   " = "" ∧
    searchService ⟨.ok [], .ok .vNull, .ok "", .ok ""⟩ (.vStr "   ")
      (some [("category", .vStr "Saree")]) 10 = (.ok [], []) :=
  ⟨rfl, search_empty_query _ _ _ _ rfl⟩

/-- C7: for every non-empty query whose filter-construction step completes
(a collaborator-side failure presupposes that the collaborator is reached:
the filter build at line 62 sits before the try block, so its own
`AttributeError` on a malformed `attributes` value propagates instead — see
`filter_of_intent_data`), a raised retrieval-collaborator failure is caught
and degraded to an empty match list — `search` still returns `.ok []` (no
exception propagates) after the one index query that was attempted. -/
theorem search_failure_degrades (env : Env) (q : String) (intent_data : Option Dict)
    (top_k : ℕ) (e : String) (f : Filter) (hq : pyStripStr q ≠ "")
    (hf : filter_of_intent_data intent_data = .ok f)
    (he : env.searchHits = .error e) :
    searchService env (.vStr q) intent_data top_k = (.ok [], [.indexQuery]) := by
  simp [searchService, hq, hf, he]

/-- Witness for C7 at a concrete non-empty query and a failing collaborator. -/
theorem search_failure_degrades_witness :
    pyStripStr "red saree" ≠ "" ∧
    filter_of_intent_data (some [("category", .vStr "Saree")]) =
      .ok [("category", [("$eq", .vStr "Saree")])] ∧
    searchService ⟨.ok [], .error "network down", .ok "", .ok ""⟩ (.vStr "red saree")
      (some [("category", .vStr "Saree")]) 10 = (.ok [], [.indexQuery]) :=
  ⟨by decide, rfl,
   search_failure_degrades _ _ _ _ "network down"
     [("category", [("$eq", .vStr "Saree")])] (by decide) rfl rfl⟩

/-- C8 counterexample: the claim quantifies over every requested window size
`n`, but at `n = 0` Python's `messages[-0:]` is the whole history, so a
1-message session yields a 1-element window where the claim demands
`min 0 1 = 0` messages. -/
theorem get_context_window_zero_counterexample :
    (add_message (Session.new "s" 0) "user" (.vStr "hi")).messages.length = 1 ∧
    get_context_window (add_message (Session.new "s" 0) "user" (.vStr "hi")) 0 =
      [("user", .vStr "hi")] ∧
    min 0 1 = 0 :=
  ⟨rfl, rfl, rfl⟩

/-- C8 (amended to positive window sizes): for every session with `N` stored
messages and every `n ≥ 1`, `get_context_window` returns the last
`min n N` messages in chronological order, exposing exactly role and content
(no timestamps). -/
theorem get_context_window_spec (s : Session) (n : ℕ) (hn : 1 ≤ n) :
    get_context_window s n =
      (s.messages.drop (s.messages.length - min n s.messages.length)).map
        (fun m => (m.role, m.content)) ∧
    (get_context_window s n).length = min n s.messages.length := by
  have hn0 : n ≠ 0 := by omega
  unfold get_context_window pySliceLast
  by_cases h : s.messages.length > n
  · have hmin : min n s.messages.length = n := by omega
    simp only [h, if_pos, hn0, if_neg, ite_true, ite_false, hmin]
    constructor
    · trivial
    · simp only [List.length_map, List.length_drop]
      omega
  · have hmin : min n s.messages.length = s.messages.length := by omega
    simp only [h, ite_false, hmin, Nat.sub_self, List.drop_zero]
    constructor
    · trivial
    · simp

/-- Witness for C8 at a 3-message session and `n = 2`: exactly the last two
turns, in order, as role/content pairs. -/
theorem get_context_window_spec_witness :
    1 ≤ 2 ∧
    (get_context_window (add_message (add_message (add_message (Session.new "s" 0)
        "user" (.vStr "a")) "assistant" (.vStr "b")) "user" (.vStr "c")) 2 =
      ((add_message (add_message (add_message (Session.new "s" 0)
        "user" (.vStr "a")) "assistant" (.vStr "b")) "user" (.vStr "c")).messages.drop
          ((add_message (add_message (add_message (Session.new "s" 0)
            "user" (.vStr "a")) "assistant" (.vStr "b")) "user" (.vStr "c")).messages.length -
            min 2 (add_message (add_message (add_message (Session.new "s" 0)
              "user" (.vStr "a")) "assistant" (.vStr "b")) "user" (.vStr "c")).messages.length)).map
        (fun m => (m.role, m.content)) ∧
      (get_context_window (add_message (add_message (add_message (Session.new "s" 0)
        "user" (.vStr "a")) "assistant" (.vStr "b")) "user" (.vStr "c")) 2).length =
        min 2 (add_message (add_message (add_message (Session.new "s" 0)
          "user" (.vStr "a")) "assistant" (.vStr "b")) "user" (.vStr "c")).messages.length) :=
  ⟨by decide, get_context_window_spec _ 2 (by decide)⟩

end Jhimki


namespace Jhimki

theorem add_message_messages (s : Session) (r : String) (c : Value) :
    (add_message s r c).messages =
      s.messages ++ [{ role := r, content := c, timestamp := s.clock }] := rfl

/-- C3: the action router is a pure function of `intent_type`, `confidence`
and `needs_clarification` (first conjunct: any two intents agreeing on those
three fields route identically), applying the first-match-wins order:
off_topic routes to chat; otherwise truthy `needs_clarification` or
`confidence < 0.6` routes to clarify; otherwise product_search routes to
search; otherwise (greeting, general_question, …) routes to chat. -/
theorem decide_action_routing (intent : Dict) (c : ℚ)
    (hc : confidence_of intent = .vNum c) :
    (∀ intent2 : Dict,
        intent_type_of intent2 = intent_type_of intent →
        needs_clarification_of intent2 = needs_clarification_of intent →
        confidence_of intent2 = confidence_of intent →
        decide_action intent2 = decide_action intent) ∧
    (intent_type_of intent = .vStr "off_topic" → decide_action intent = .ok "chat") ∧
    (intent_type_of intent ≠ .vStr "off_topic" →
      ((needs_clarification_of intent).truthy = true ∨ c < 3/5) →
      decide_action intent = .ok "clarify") ∧
    (intent_type_of intent = .vStr "product_search" →
      (needs_clarification_of intent).truthy = false → ¬ c < 3/5 →
      decide_action intent = .ok "search") ∧
    (intent_type_of intent ≠ .vStr "off_topic" →
      intent_type_of intent ≠ .vStr "product_search" →
      (needs_clarification_of intent).truthy = false → ¬ c < 3/5 →
      decide_action intent = .ok "chat") := by
  refine ⟨?_, ?_, ?_, ?_, ?_⟩
  · intro intent2 h1 h2 h3
    simp only [decide_action, h1, h2, h3]
  · intro h
    simp [decide_action, h, Value.isStrLit]
  · intro h hcl
    have hlit : (intent_type_of intent).isStrLit "off_topic" = false := by
      rcases hb : (intent_type_of intent).isStrLit "off_topic" with _ | _
      · rfl
      · exact absurd ((isStrLit_eq_true_iff _ _).mp hb) h
    rcases hcl with hcl | hcl
    · simp [decide_action, hlit, hcl]
    · simp [decide_action, hlit, hc, pyLtNum, hcl]
  · intro h hncl hlt
    have hps : (intent_type_of intent).isStrLit "product_search" = true :=
      (isStrLit_eq_true_iff _ _).mpr h
    have hot : (intent_type_of intent).isStrLit "off_topic" = false := by
      rw [h]; simp [Value.isStrLit]
    simp [decide_action, hot, hncl, hc, pyLtNum, hlt, hps]
  · intro h hps hncl hlt
    have hot : (intent_type_of intent).isStrLit "off_topic" = false := by
      rcases hb : (intent_type_of intent).isStrLit "off_topic" with _ | _
      · rfl
      · exact absurd ((isStrLit_eq_true_iff _ _).mp hb) h
    have hps2 : (intent_type_of intent).isStrLit "product_search" = false := by
      rcases hb : (intent_type_of intent).isStrLit "product_search" with _ | _
      · rfl
      · exact absurd ((isStrLit_eq_true_iff _ _).mp hb) hps
    simp [decide_action, hot, hncl, hc, pyLtNum, hlt, hps2]

/-- Witness for C3 at the spec's two instances:
`{intent_type: off_topic, confidence: 0.95}` routes to chat and
`{intent_type: product_search, confidence: 0.4}` routes to clarify. -/
theorem decide_action_routing_witness :
    decide_action [("intent_type", .vStr "off_topic"),
      ("confidence", .vNum (95/100))] = .ok "chat" ∧
    decide_action [("intent_type", .vStr "product_search"),
      ("confidence", .vNum (2/5))] = .ok "clarify" := by
  constructor
  · exact (decide_action_routing [("intent_type", .vStr "off_topic"),
      ("confidence", .vNum (95/100))] (95/100) rfl).2.1 rfl
  · refine (decide_action_routing [("intent_type", .vStr "product_search"),
      ("confidence", .vNum (2/5))] (2/5) rfl).2.2.1 ?_ (Or.inr (by norm_num))
    intro hcontra
    have h2 : ("product_search" : String) = "off_topic" := by
      injection hcontra
    exact absurd h2 (by decide)

theorem decide_action_default (msg : String) :
    decide_action (default_intent msg) = .ok "clarify" := by
  have h1 : confidence_of (default_intent msg) = .vNum (1/2) := rfl
  have hlt : pyLtNum (confidence_of (default_intent msg)) (3/5) = .ok true := by
    rw [h1]
    simp only [pyLtNum]
    norm_num
  have h2 : (intent_type_of (default_intent msg)).isStrLit "off_topic" = false := rfl
  have h3 : (needs_clarification_of (default_intent msg)).truthy = false := rfl
  simp [decide_action, hlt, h2, h3]

theorem process_message_classify_error (env : Env) (s : Session) (msg e : String)
    (h : env.classify = .error e) :
    process_message env s msg =
      (add_message (add_message s "user" (.vStr msg)) "assistant"
         (pyGet (execute_clarify (default_intent msg)) "response"),
       execute_clarify (default_intent msg), []) := by
  have hext : extract_intent env msg (add_message s "user" (.vStr msg)) =
      (default_intent msg, add_message s "user" (.vStr msg)) := by
    simp [extract_intent, h]
  simp only [process_message, hext, decide_action_default, execute_action]
  rfl

/-- C6: when the classification call or the parsing of its output fails, the
intent extractor returns exactly the default intent (`general_question`,
`search_query` = the raw user text, `confidence = 0.5`,
`needs_clarification = false`), and the turn still completes without the
error action: the default intent's 0.5 confidence routes to clarify and the
clarify branch is pure, so the response is the generic clarification with
action `clarify` — never the apology/error tag. -/
theorem extract_intent_fail_soft (env : Env) (s : Session) (msg e : String)
    (h : env.classify = .error e) :
    (extract_intent env msg s).1 =
      [("intent_type", .vStr "general_question"),
       ("search_query", .vStr msg),
       ("confidence", .vNum (1/2)),
       ("needs_clarification", .vBool false)] ∧
    pyGet (process_message env s msg).2.1 "action" = .vStr "clarify" ∧
    pyGet (process_message env s msg).2.1 "response" = .vStr generic_clarification := by
  refine ⟨by simp [extract_intent, h, default_intent], ?_, ?_⟩ <;>
    rw [process_message_classify_error env s msg e h] <;> rfl

/-- Witness for C6: a concrete failing classifier yields the default intent,
the clarify action and the generic clarification text. -/
theorem extract_intent_fail_soft_witness :
    (⟨.error "boom", .ok .vNull, .ok "x", .ok "y"⟩ : Env).classify = .error "boom" ∧
    ((extract_intent ⟨.error "boom", .ok .vNull, .ok "x", .ok "y"⟩ "hello"
        (Session.new "s" 0)).1 =
      [("intent_type", .vStr "general_question"),
       ("search_query", .vStr "hello"),
       ("confidence", .vNum (1/2)),
       ("needs_clarification", .vBool false)] ∧
    pyGet (process_message ⟨.error "boom", .ok .vNull, .ok "x", .ok "y"⟩
      (Session.new "s" 0) "hello").2.1 "action" = .vStr "clarify" ∧
    pyGet (process_message ⟨.error "boom", .ok .vNull, .ok "x", .ok "y"⟩
      (Session.new "s" 0) "hello").2.1 "response" = .vStr generic_clarification) :=
  ⟨rfl, extract_intent_fail_soft _ _ "hello" "boom" rfl⟩

/-- C5: whenever the classifier yields an intent whose `intent_type` is
`off_topic`, the turn performs no collaborator query at all (no index query,
no generation call — the effect trace is empty), and the response is exactly
the fixed boundary message with an empty products list and action `chat`,
whatever the intent's other fields hold. -/
theorem off_topic_short_circuit (env : Env) (s : Session) (msg : String) (intent : Dict)
    (hcl : env.classify = .ok intent)
    (hot : intent_type_of intent = .vStr "off_topic") :
    pyGet (process_message env s msg).2.1 "response" = .vStr off_topic_message ∧
    pyGet (process_message env s msg).2.1 "products" = .vList [] ∧
    pyGet (process_message env s msg).2.1 "action" = .vStr "chat" ∧
    (process_message env s msg).2.2 = [] := by
  have hlit : (intent_type_of intent).isStrLit "off_topic" = true :=
    (isStrLit_eq_true_iff _ _).mpr hot
  have hd : decide_action intent = .ok "chat" := by
    simp [decide_action, hlit]
  have hchat : execute_chat env intent msg =
      ([("response", .vStr off_topic_message),
        ("products", .vList []),
        ("action", .vStr "chat"),
        ("intent", .vDict intent)], []) := by
    simp [execute_chat, hlit]
  have hext : (extract_intent env msg (add_message s "user" (.vStr msg))).1 = intent := by
    simp [extract_intent, hcl]
  simp only [process_message, hext, hd, execute_action, hchat]
  exact ⟨rfl, rfl, rfl, rfl⟩

/-- Witness for C5: a classifier returning an off-topic intent (with high
confidence, as in the spec's weather example) produces the fixed boundary
message, no products, action chat and an empty effect trace. -/
theorem off_topic_short_circuit_witness :
    (⟨.ok [("intent_type", .vStr "off_topic"), ("confidence", .vNum (95/100))],
        .ok .vNull, .ok "x", .ok "y"⟩ : Env).classify =
      .ok [("intent_type", .vStr "off_topic"), ("confidence", .vNum (95/100))] ∧
    intent_type_of [("intent_type", .vStr "off_topic"),
      ("confidence", .vNum (95/100))] = .vStr "off_topic" ∧
    (pyGet (process_message ⟨.ok [("intent_type", .vStr "off_topic"),
        ("confidence", .vNum (95/100))], .ok .vNull, .ok "x", .ok "y"⟩
        (Session.new "s" 0) "What is the weather?").2.1 "response" =
        .vStr off_topic_message ∧
      pyGet (process_message ⟨.ok [("intent_type", .vStr "off_topic"),
        ("confidence", .vNum (95/100))], .ok .vNull, .ok "x", .ok "y"⟩
        (Session.new "s" 0) "What is the weather?").2.1 "products" = .vList [] ∧
      pyGet (process_message ⟨.ok [("intent_type", .vStr "off_topic"),
        ("confidence", .vNum (95/100))], .ok .vNull, .ok "x", .ok "y"⟩
        (Session.new "s" 0) "What is the weather?").2.1 "action" = .vStr "chat" ∧
      (process_message ⟨.ok [("intent_type", .vStr "off_topic"),
        ("confidence", .vNum (95/100))], .ok .vNull, .ok "x", .ok "y"⟩
        (Session.new "s" 0) "What is the weather?").2.2 = []) :=
  ⟨rfl, rfl, off_topic_short_circuit _ _ _ _ rfl rfl⟩

/-- C1 counterexample: with a classifier returning a non-numeric confidence
(`"high"`), the confidence comparison raises, the orchestrator's error path
returns the fixed apology with the error action tag — but the apology is
*not* recorded in the session history: after the turn the history holds only
the user message, with no assistant turn. -/
theorem process_message_apology_not_recorded :
    pyGet (process_message ⟨.ok [("intent_type", .vStr "product_search"),
        ("confidence", .vStr "high")], .ok .vNull, .ok "x", .ok "y"⟩
        (Session.new "s" 0) "hi").2.1 "action" = .vStr "error" ∧
    pyGet (process_message ⟨.ok [("intent_type", .vStr "product_search"),
        ("confidence", .vStr "high")], .ok .vNull, .ok "x", .ok "y"⟩
        (Session.new "s" 0) "hi").2.1 "response" = .vStr apology_message ∧
    (process_message ⟨.ok [("intent_type", .vStr "product_search"),
        ("confidence", .vStr "high")], .ok .vNull, .ok "x", .ok "y"⟩
        (Session.new "s" 0) "hi").1.messages.map (fun m => (m.role, m.content)) =
      [("user", .vStr "hi")] :=
  ⟨rfl, rfl, rfl⟩

theorem execute_chat_action (env : Env) (intent : Dict) (msg : String) :
    pyGet (execute_chat env intent msg).1 "action" = .vStr "chat" := by
  simp only [execute_chat]
  split
  · rfl
  · split <;> rfl

theorem execute_action_ok_action (env : Env) (a : String) (intent : Dict)
    (msg : String) (rd : Dict) (effs : List Effect)
    (h : execute_action env a intent msg = (.ok rd, effs)) :
    pyGet rd "action" = .vStr "search" ∨ pyGet rd "action" = .vStr "clarify" ∨
      pyGet rd "action" = .vStr "chat" := by
  simp only [execute_action] at h
  split at h
  · simp only [execute_search] at h
    split at h
    · rw [Prod.mk.injEq] at h
      exact absurd h.1 (by simp)
    · split at h
      · rw [Prod.mk.injEq] at h
        exact absurd h.1 (by simp)
      · split at h
        · rw [Prod.mk.injEq] at h
          exact absurd h.1 (by simp)
        · rw [Prod.mk.injEq] at h
          obtain ⟨h1, -⟩ := h
          rw [Except.ok.injEq] at h1
          subst h1
          left
          rfl
  · split at h
    · rw [Prod.mk.injEq] at h
      obtain ⟨h1, -⟩ := h
      rw [Except.ok.injEq] at h1
      subst h1
      right; left
      rfl
    · rw [Prod.mk.injEq] at h
      obtain ⟨h1, -⟩ := h
      rw [Except.ok.injEq] at h1
      subst h1
      right; right
      exact execute_chat_action env intent msg

/-- C1 (amended): for every environment, session and message, exactly one of
two outcomes occurs.  Either the turn carries the error action tag, the
response is the fixed apology, and the history ends with only the inbound
user message appended exactly once — the apology is *not* recorded; or the
turn carries a non-error action tag and the history ends with the user
message and the assistant response, each appended exactly once. -/
theorem process_message_history (env : Env) (s : Session) (msg : String) :
    (pyGet (process_message env s msg).2.1 "action" = .vStr "error" ∧
      pyGet (process_message env s msg).2.1 "response" = .vStr apology_message ∧
      (process_message env s msg).1.messages.map (fun m => (m.role, m.content)) =
        s.messages.map (fun m => (m.role, m.content)) ++ [("user", .vStr msg)]) ∨
    (pyGet (process_message env s msg).2.1 "action" ≠ .vStr "error" ∧
      (process_message env s msg).1.messages.map (fun m => (m.role, m.content)) =
        s.messages.map (fun m => (m.role, m.content)) ++ [("user", .vStr msg),
          ("assistant", pyGet (process_message env s msg).2.1 "response")]) := by
  have hmsgs : (extract_intent env msg (add_message s "user" (.vStr msg))).2.messages =
      s.messages ++ [{ role := "user", content := .vStr msg, timestamp := s.clock }] := by
    rw [extract_intent_messages, add_message_messages]
  simp only [process_message]
  split
  · left
    exact ⟨rfl, rfl, by simp [hmsgs]⟩
  · split
    · left
      exact ⟨rfl, rfl, by simp [hmsgs]⟩
    · rename_i x rd effs heq
      right
      constructor
      · rcases execute_action_ok_action env _ _ msg rd effs heq with h|h|h <;>
          · show ¬ pyGet rd "action" = .vStr "error"
            rw [h]
            intro hc
            injection hc with hs
            exact absurd hs (by decide)
      · simp [add_message_messages, hmsgs]

end Jhimki

namespace Jhimki

theorem pyGetD_none {d : Dict} {k : String} {v : Value}
    (h : dlookup d k = none) : pyGetD d k v = v := by
  simp [pyGetD, h]

/-- C9 counterexample: for a match whose metadata lacks `in_stock`, the
presentation record renders `in_stock` as the definite value `True`, which is
not one of the explicit empty/unknown markers the spec allows for fields
absent from metadata. -/
theorem format_products_marker_counterexample :
    dlookup ([("product_name", .vStr "Saree")] : Dict) "in_stock" = none ∧
    format_product ⟨.vStr "p1", .vNum (1/2), [("product_name", .vStr "Saree")]⟩ =
      .ok [("id", .vStr "p1"), ("product_id", .vStr "p1"), ("name", .vStr "Saree"),
           ("price", .vStr "N/A"), ("category", .vStr ""), ("subcategory", .vStr ""),
           ("color", .vStr ""), ("fabric", .vStr ""), ("technique", .vStr ""),
           ("pattern", .vStr ""), ("description", .vStr ""), ("in_stock", .vBool true),
           ("colors_available", .vStr ""), ("score", .vNum (round4 (1/2)))] ∧
    spec_empty_marker (.vBool true) = false :=
  ⟨rfl, rfl, rfl⟩

/-- C9 (amended): for every match (with a numeric score, as retrieval
produces), the presentation record carries exactly the fourteen documented
keys in order, the price formatted from the metadata price, the score rounded
to four decimal places, and every metadata-absent field rendered as its
explicit empty/unknown marker — except `in_stock`, which defaults to the
definite value `True`, and `product_id`, which falls back to the match id. -/
theorem format_product_spec (m : MatchRec) (q : ℚ) (hs : m.score = .vNum q) :
    ∃ p : Dict, format_product m = .ok p ∧
      p.map Prod.fst = ["id", "product_id", "name", "price", "category",
        "subcategory", "color", "fabric", "technique", "pattern", "description",
        "in_stock", "colors_available", "score"] ∧
      dlookup p "price" =
        some (.vStr (format_price (pyGetD m.metadata "price" (.vStr "N/A")))) ∧
      dlookup p "score" = some (.vNum (round4 q)) ∧
      (∀ k ∈ (["category", "subcategory", "color", "fabric", "technique",
          "pattern", "description", "colors_available"] : List String),
        dlookup m.metadata k = none → dlookup p k = some (.vStr "")) ∧
      (dlookup m.metadata "product_name" = none →
        dlookup p "name" = some (.vStr "Unknown")) ∧
      (dlookup m.metadata "product_id" = none →
        dlookup p "product_id" = some m.id) ∧
      (dlookup m.metadata "in_stock" = none →
        dlookup p "in_stock" = some (.vBool true)) := by
  refine ⟨[("id", m.id),
           ("product_id", pyGetD m.metadata "product_id" m.id),
           ("name", pyGetD m.metadata "product_name" (.vStr "Unknown")),
           ("price", .vStr (format_price (pyGetD m.metadata "price" (.vStr "N/A")))),
           ("category", pyGetD m.metadata "category" (.vStr "")),
           ("subcategory", pyGetD m.metadata "subcategory" (.vStr "")),
           ("color", pyGetD m.metadata "color" (.vStr "")),
           ("fabric", pyGetD m.metadata "fabric" (.vStr "")),
           ("technique", pyGetD m.metadata "technique" (.vStr "")),
           ("pattern", pyGetD m.metadata "pattern" (.vStr "")),
           ("description", pyGetD m.metadata "description" (.vStr "")),
           ("in_stock", pyGetD m.metadata "in_stock" (.vBool true)),
           ("colors_available", pyGetD m.metadata "colors_available" (.vStr "")),
           ("score", .vNum (round4 q))],
         by simp only [format_product, hs, pyRound4], rfl, rfl, rfl, ?_, ?_, ?_, ?_⟩
  · intro k hk h
    fin_cases hk <;> exact congrArg some (pyGetD_none h)
  · intro h
    exact congrArg some (pyGetD_none h)
  · intro h
    exact congrArg some (pyGetD_none h)
  · intro h
    exact congrArg some (pyGetD_none h)

/-- Witness for C9 at a match with empty metadata: all defaults fire. -/
theorem format_product_spec_witness :
    (⟨.vStr "p1", .vNum (1/2), []⟩ : MatchRec).score = .vNum (1/2) ∧
    (∃ p : Dict, format_product ⟨.vStr "p1", .vNum (1/2), []⟩ = .ok p ∧
      p.map Prod.fst = ["id", "product_id", "name", "price", "category",
        "subcategory", "color", "fabric", "technique", "pattern", "description",
        "in_stock", "colors_available", "score"] ∧
      dlookup p "price" =
        some (.vStr (format_price (pyGetD ([] : Dict) "price" (.vStr "N/A")))) ∧
      dlookup p "score" = some (.vNum (round4 (1/2))) ∧
      (∀ k ∈ (["category", "subcategory", "color", "fabric", "technique",
          "pattern", "description", "colors_available"] : List String),
        dlookup ([] : Dict) k = none → dlookup p k = some (.vStr "")) ∧
      (dlookup ([] : Dict) "product_name" = none →
        dlookup p "name" = some (.vStr "Unknown")) ∧
      (dlookup ([] : Dict) "product_id" = none →
        dlookup p "product_id" = some (.vStr "p1")) ∧
      (dlookup ([] : Dict) "in_stock" = none →
        dlookup p "in_stock" = some (.vBool true))) :=
  ⟨rfl, format_product_spec ⟨.vStr "p1", .vNum (1/2), []⟩ (1/2) rfl⟩

/-- C10: for every match (with a numeric score) whose metadata lacks the
`in_stock` field, the presentation record sets `in_stock` to the definite
value `True`, and the search-response generation prompt labels that product
"In Stock" — its summary block carries the literal stock line. -/
theorem in_stock_missing_presented_in_stock (m : MatchRec) (q : ℚ) (p : Dict)
    (hs : m.score = .vNum q) (hm : dlookup m.metadata "in_stock" = none)
    (hp : format_product m = .ok p) :
    dlookup p "in_stock" = some (.vBool true) ∧
    stock_status p = "In Stock" ∧
    ∀ i : ℕ, product_summary i p =
      product_summary_pre i p ++ "- Stock: " ++ "In Stock" ++ "\n" ++
        product_summary_post p := by
  simp only [format_product, pyRound4, hs] at hp
  rw [Except.ok.injEq] at hp
  have hin : dlookup p "in_stock" = some (.vBool true) := by
    rw [← hp]
    exact congrArg some (pyGetD_none hm)
  have hgd : pyGetD p "in_stock" (.vBool true) = .vBool true := by
    rw [pyGetD, hin]
    rfl
  have hss : stock_status p = "In Stock" := by
    simp [stock_status, hgd, Value.truthy]
  exact ⟨hin, hss, fun i => by simp only [product_summary, hss]⟩

/-- Witness for C10 at a concrete match without an `in_stock` field. -/
theorem in_stock_missing_presented_in_stock_witness :
    (⟨.vStr "p2", .vNum (3/4), [("product_name", .vStr "Ajrakh Saree")]⟩ : MatchRec).score =
      .vNum (3/4) ∧
    dlookup ([("product_name", .vStr "Ajrakh Saree")] : Dict) "in_stock" = none ∧
    format_product ⟨.vStr "p2", .vNum (3/4), [("product_name", .vStr "Ajrakh Saree")]⟩ =
      .ok [("id", .vStr "p2"), ("product_id", .vStr "p2"),
           ("name", .vStr "Ajrakh Saree"), ("price", .vStr "N/A"),
           ("category", .vStr ""), ("subcategory", .vStr ""), ("color", .vStr ""),
           ("fabric", .vStr ""), ("technique", .vStr ""), ("pattern", .vStr ""),
           ("description", .vStr ""), ("in_stock", .vBool true),
           ("colors_available", .vStr ""), ("score", .vNum (round4 (3/4)))] ∧
    (dlookup ([("id", Value.vStr "p2"), ("product_id", Value.vStr "p2"),
           ("name", Value.vStr "Ajrakh Saree"), ("price", Value.vStr "N/A"),
           ("category", Value.vStr ""), ("subcategory", Value.vStr ""),
           ("color", Value.vStr ""), ("fabric", Value.vStr ""),
           ("technique", Value.vStr ""), ("pattern", Value.vStr ""),
           ("description", Value.vStr ""), ("in_stock", Value.vBool true),
           ("colors_available", Value.vStr ""),
           ("score", Value.vNum (round4 (3/4)))] : Dict) "in_stock" =
        some (.vBool true) ∧
      stock_status [("id", Value.vStr "p2"), ("product_id", Value.vStr "p2"),
           ("name", Value.vStr "Ajrakh Saree"), ("price", Value.vStr "N/A"),
           ("category", Value.vStr ""), ("subcategory", Value.vStr ""),
           ("color", Value.vStr ""), ("fabric", Value.vStr ""),
           ("technique", Value.vStr ""), ("pattern", Value.vStr ""),
           ("description", Value.vStr ""), ("in_stock", Value.vBool true),
           ("colors_available", Value.vStr ""),
           ("score", Value.vNum (round4 (3/4)))] = "In Stock" ∧
      ∀ i : ℕ, product_summary i [("id", Value.vStr "p2"), ("product_id", Value.vStr "p2"),
           ("name", Value.vStr "Ajrakh Saree"), ("price", Value.vStr "N/A"),
           ("category", Value.vStr ""), ("subcategory", Value.vStr ""),
           ("color", Value.vStr ""), ("fabric", Value.vStr ""),
           ("technique", Value.vStr ""), ("pattern", Value.vStr ""),
           ("description", Value.vStr ""), ("in_stock", Value.vBool true),
           ("colors_available", Value.vStr ""),
           ("score", Value.vNum (round4 (3/4)))] =
        product_summary_pre i [("id", Value.vStr "p2"), ("product_id", Value.vStr "p2"),
           ("name", Value.vStr "Ajrakh Saree"), ("price", Value.vStr "N/A"),
           ("category", Value.vStr ""), ("subcategory", Value.vStr ""),
           ("color", Value.vStr ""), ("fabric", Value.vStr ""),
           ("technique", Value.vStr ""), ("pattern", Value.vStr ""),
           ("description", Value.vStr ""), ("in_stock", Value.vBool true),
           ("colors_available", Value.vStr ""),
           ("score", Value.vNum (round4 (3/4)))] ++
          "- Stock: " ++ "In Stock" ++ "\n" ++
          product_summary_post [("id", Value.vStr "p2"), ("product_id", Value.vStr "p2"),
           ("name", Value.vStr "Ajrakh Saree"), ("price", Value.vStr "N/A"),
           ("category", Value.vStr ""), ("subcategory", Value.vStr ""),
           ("color", Value.vStr ""), ("fabric", Value.vStr ""),
           ("technique", Value.vStr ""), ("pattern", Value.vStr ""),
           ("description", Value.vStr ""), ("in_stock", Value.vBool true),
           ("colors_available", Value.vStr ""),
           ("score", Value.vNum (round4 (3/4)))]) :=
  ⟨rfl, rfl, rfl,
   in_stock_missing_presented_in_stock
     ⟨.vStr "p2", .vNum (3/4), [("product_name", .vStr "Ajrakh Saree")]⟩ (3/4)
     [("id", Value.vStr "p2"), ("product_id", Value.vStr "p2"),
      ("name", Value.vStr "Ajrakh Saree"), ("price", Value.vStr "N/A"),
      ("category", Value.vStr ""), ("subcategory", Value.vStr ""),
      ("color", Value.vStr ""), ("fabric", Value.vStr ""),
      ("technique", Value.vStr ""), ("pattern", Value.vStr ""),
      ("description", Value.vStr ""), ("in_stock", Value.vBool true),
      ("colors_available", Value.vStr ""), ("score", Value.vNum (round4 (3/4)))]
     rfl rfl rfl⟩

end Jhimki
